import Mathlib

/-!
Shallow embedding of the torrent lifecycle state machine from
`crates/librqbit/src/torrent_state/mod.rs`.

The stateful Rust code is modelled by explicit state passing: the contents of
the `RwLock<ManagedTorrentLocked>` cell is a `ManagedTorrentState` value that
each operation receives and returns.  Errors (`anyhow::Error`) are modelled as
`String`; `anyhow`'s Debug formatting of an error is abstracted to the
identity on that string.  Peer addresses (`SocketAddr`) are modelled as `Nat`.

The live, paused and initializing phase payloads live in sibling modules that
are not part of the provided sources; they are modelled from the spec's
description of the collaborator interfaces, with only the fields and
operations the lifecycle code under scrutiny touches.
-/

/-- Modelled from the spec: the Paused phase payload (`TorrentStatePaused`,
module `paused` is not in the provided sources).  Per the spec it holds the
chunk-completion structure and a fixed count of confirmed-complete bytes; the
chunk tracker is abstracted to an opaque tag since the lifecycle code only
moves it around. -/
structure TorrentStatePaused where
  have_bytes : Nat
  chunk_tracker : Nat
deriving DecidableEq, Repr

deriving instance DecidableEq for Except

/-- Modelled from the spec: the Live phase payload (`TorrentStateLive`, module
`live` is not in the provided sources).  Per the spec the live-session
collaborator exposes a synchronous `pause` producing a Paused-equivalent
result or failing, and a sub-statistics snapshot; we record the snapshot's
complete-byte count and the outcome its `pause` would produce. -/
structure TorrentStateLive where
  have_bytes : Nat
  pause_result : Except String TorrentStatePaused
deriving DecidableEq, Repr

/-- Modelled from the spec: the Initializing phase payload
(`TorrentStateInitializing`, module `initializing` is not in the provided
sources).  It exposes a monotonically increasing counter of verified bytes
(`checked_bytes`) and is built from the descriptor plus the optional
file-selection subset. -/
structure TorrentStateInitializing where
  checked_bytes : Nat
  only_files : Option (List Nat)
deriving DecidableEq, Repr

/-- Modelled from the spec: `TorrentStateInitializing::new(info, only_files)`
builds a fresh Initializing payload seeded with the file-selection subset and
a verified-byte counter that has not counted anything yet. -/
def TorrentStateInitializing.new (only_files : Option (List Nat)) :
    TorrentStateInitializing :=
  { checked_bytes := 0, only_files := only_files }

/-- `ManagedTorrentState` from the source: the phase sum type.  The `none`
variant is the source's `None`, used when swapping between states; the outside
world should never see it. -/
inductive ManagedTorrentState where
  | initializing (init : TorrentStateInitializing)
  | paused (p : TorrentStatePaused)
  | live (l : TorrentStateLive)
  | error (e : String)
  | none
deriving DecidableEq, Repr

/-- `ManagedTorrentState::take`: `std::mem::replace(self, Self::None)`.  Given
the current cell contents, returns the moved-out value together with the cell
contents left behind (the `None` placeholder). -/
def ManagedTorrentState.take (s : ManagedTorrentState) :
    ManagedTorrentState × ManagedTorrentState :=
  (s, ManagedTorrentState.none)

/-- The slice of `ManagedTorrentInfo` the lifecycle code reads: the computed
lengths are abstracted to the total length, which is all `stats` and
`get_total_bytes` use. -/
structure ManagedTorrentInfo where
  total_length : Nat
deriving DecidableEq, Repr

/-- `ManagedTorrent` minus the lock cell: the descriptor and the duplicated
file-selection subset.  The locked phase is passed to each operation
explicitly. -/
structure ManagedTorrent where
  info : ManagedTorrentInfo
  only_files : Option (List Nat)
deriving DecidableEq, Repr

/-- `LiveStats::from(&TorrentStateLive)` from the `stats` module (not in the
provided sources).  Modelled from the spec: a nested live-session snapshot;
we keep the one field the lifecycle code reads, `snapshot.have_bytes`. -/
structure LiveStats where
  snapshot_have_bytes : Nat
deriving DecidableEq, Repr

def LiveStats.from (l : TorrentStateLive) : LiveStats :=
  { snapshot_have_bytes := l.have_bytes }

/-- `TorrentStats` from the source's `stats` module, as populated by
`ManagedTorrent::stats`. -/
structure TorrentStats where
  total_bytes : Nat
  state : String
  error : Option String
  progress_bytes : Nat
  finished : Bool
  live : Option LiveStats
deriving DecidableEq, Repr

/-- `ManagedTorrent::stats`: builds the default response from the descriptor's
total length, then fills it in per phase under shared access. -/
def ManagedTorrent.stats (t : ManagedTorrent) (s : ManagedTorrentState) :
    TorrentStats :=
  let resp : TorrentStats :=
    { total_bytes := t.info.total_length
      state := ""
      error := Option.none
      progress_bytes := 0
      finished := false
      live := Option.none }
  match s with
  | .initializing i =>
      { resp with state := "initializing", progress_bytes := i.checked_bytes }
  | .paused p =>
      { resp with
          state := "paused"
          progress_bytes := p.have_bytes
          finished := p.have_bytes == resp.total_bytes }
  | .live l =>
      let live_stats := LiveStats.from l
      { resp with
          state := "live"
          progress_bytes := live_stats.snapshot_have_bytes
          finished := live_stats.snapshot_have_bytes == resp.total_bytes
          live := some live_stats }
  | .error e =>
      { resp with state := "error", error := some e }
  | .none =>
      { resp with
          state := "error"
          error := some "bug: torrent in broken \x22None\x22 state" }

/-- `ManagedTorrent::pause`: under exclusive access, only the Live phase may
transition; `live.pause()?` propagates a live-session pause failure, in which
case the phase is left untouched (the `?` fires before `g.state` is
assigned). -/
def ManagedTorrent.pause (s : ManagedTorrentState) :
    Except String Unit × ManagedTorrentState :=
  match s with
  | .live l =>
      match l.pause_result with
      | .ok paused => (.ok (), .paused paused)
      | .error e => (.error e, .live l)
  | .initializing i =>
      (.error "torrent is initializing, can't pause", .initializing i)
  | .paused p => (.error "torrent is already paused", .paused p)
  | .error e => (.error "can't pause torrent in error state", .error e)
  | .none => (.error "bug: torrent is in empty state", .none)

/-- Outcome of `ManagedTorrent::stop_with_error`: the state installed in the
cell, whether the live session's `pause` was invoked, and the warnings
logged. -/
structure StopOutcome where
  state : ManagedTorrentState
  live_pause_attempted : Bool
  warnings : List String
deriving DecidableEq, Repr

/-- `ManagedTorrent::stop_with_error`: takes the state out (leaving the `None`
placeholder), best-effort pauses a live session (logging, not propagating, a
failure), warns on the `Error` and `None` cases, and finally installs
`Error(error)` before the exclusive section ends. -/
def ManagedTorrent.stop_with_error (error : String) (s : ManagedTorrentState) :
    StopOutcome :=
  let taken := s.take
  match taken.fst with
  | .live live =>
      match live.pause_result with
      | .ok _ =>
          { state := .error error, live_pause_attempted := true, warnings := [] }
      | .error err =>
          { state := .error error
            live_pause_attempted := true
            warnings :=
              ["error pausing live torrent during fatal error handling: " ++ err] }
  | .error e =>
      { state := .error error
        live_pause_attempted := false
        warnings :=
          ["bug: torrent already was in error state when trying to stop it. Previous error was: "
            ++ e] }
  | .none =>
      { state := .error error
        live_pause_attempted := false
        warnings :=
          ["bug: torrent encountered in None state during fatal error handling"] }
  | _ =>
      { state := .error error, live_pause_attempted := false, warnings := [] }

/-- Body of the `fatal_errors_receiver` task spawned on entering Live:
`rx` is the one-shot failure signal (`Option.none` models the channel closing
without a failure), `reachable` models whether the weak back-reference to the
controller upgrades.  On a delivered failure with a reachable controller it
runs `stop_with_error`; otherwise it exits without touching the state. -/
def fatalErrorsReceiverBody (rx : Option String) (reachable : Bool)
    (s : ManagedTorrentState) : StopOutcome :=
  match rx with
  | Option.none => { state := s, live_pause_attempted := false, warnings := [] }
  | some e =>
      if reachable then ManagedTorrent.stop_with_error e s
      else
        { state := s
          live_pause_attempted := false
          warnings := ["tried to stop the torrent with error, but it's couldn't upgrade the arc"] }

/-- The background tasks `ManagedTorrent::start` spawns, recorded as data:
`spawnedInitTask` is the `initialize_and_start` task holding a clone of the
Initializing handle; `spawnedLiveTasks` is the pair of the
`fatal_errors_receiver` and the `external_peer_adder` (which captures the
fresh live session, the initial peer list and the optional discovery
stream). -/
inductive StartEffect where
  | spawnedInitTask (init : TorrentStateInitializing)
  | spawnedLiveTasks (live : TorrentStateLive) (initial_peers : List Nat)
      (peer_rx : Option (List Nat))
  | none
deriving DecidableEq, Repr

/-- What a call to `ManagedTorrent::start` leaves behind: the value returned
to the caller, the state stored in the cell when the call returns, and the
tasks spawned. -/
structure StartOutcome where
  result : Except String Unit
  state : ManagedTorrentState
  effect : StartEffect
deriving DecidableEq, Repr

/-- The synchronous part of `ManagedTorrent::start`.  `newLive` is the
external `TorrentStateLive::new(paused, tx)` constructor (module `live` is
not in the provided sources), passed as an oracle.  From Initializing the
lock is released and the verification task is spawned (its continuation is
`initAndStartCont` below); from Paused the state is taken and a live phase
installed synchronously; from Error a brand-new Initializing phase is
installed and `start` recurses; the recursion terminates because the fresh
phase is Initializing, never Error. -/
def ManagedTorrent.start (t : ManagedTorrent)
    (newLive : TorrentStatePaused → TorrentStateLive)
    (initial_peers : List Nat) (peer_rx : Option (List Nat))
    (start_paused : Bool) :
    ManagedTorrentState → StartOutcome
  | .live l =>
      { result := .error "torrent is already live"
        state := .live l
        effect := StartEffect.none }
  | .initializing init =>
      { result := .ok ()
        state := .initializing init
        effect := .spawnedInitTask init }
  | .paused p =>
      let taken := (ManagedTorrentState.paused p).take
      match taken.fst with
      | .paused paused =>
          let live := newLive paused
          { result := .ok ()
            state := .live live
            effect := .spawnedLiveTasks live initial_peers peer_rx }
      | _ =>
          { result := .error "Expected paused state"
            state := taken.snd
            effect := StartEffect.none }
  | .error _ =>
      let initializing := TorrentStateInitializing.new t.only_files
      t.start newLive initial_peers peer_rx start_paused
        (.initializing initializing)
  | .none =>
      { result := .error "bug: torrent is in empty state"
        state := .none
        effect := StartEffect.none }
termination_by s => match s with
  | .error _ => 1
  | _ => 0

/-- The continuation of the `initialize_and_start` task after
`init.check().await` resolves: `checkResult` is the verification outcome, `s`
the state found when the lock is re-acquired.  On success the attempt is
abandoned (success, state untouched) unless the phase is still some
Initializing variant, in which case Paused or Live is installed per
`start_paused`; on failure the Error phase is installed and the failure is
returned as the task's result. -/
def initAndStartCont (_t : ManagedTorrent)
    (newLive : TorrentStatePaused → TorrentStateLive)
    (initial_peers : List Nat) (peer_rx : Option (List Nat))
    (start_paused : Bool)
    (checkResult : Except String TorrentStatePaused)
    (s : ManagedTorrentState) : StartOutcome :=
  match checkResult with
  | .ok paused =>
      match s with
      | .initializing _ =>
          if start_paused then
            { result := .ok (), state := .paused paused, effect := StartEffect.none }
          else
            let live := newLive paused
            { result := .ok ()
              state := .live live
              effect := .spawnedLiveTasks live initial_peers peer_rx }
      | other =>
          { result := .ok (), state := other, effect := StartEffect.none }
  | .error err =>
      { result := .error err, state := .error err, effect := StartEffect.none }

/-- One sample of the polling loop in `ManagedTorrent::wait_until_completed`:
the closure passed to `with_state`.  `ok Option.none` means sleep one fixed
interval and resample; `ok (some l)` means break out and delegate to the live
session; an error is returned to the caller at once. -/
def wucStep (s : ManagedTorrentState) :
    Except String (Option TorrentStateLive) :=
  match s with
  | .initializing _ => .ok Option.none
  | .paused _ => .ok Option.none
  | .live l => .ok (some l)
  | .error e => .error e
  | .none => .error "bug: torrent state is None"

/-- The polling loop of `wait_until_completed`, driven by the sequence of
states it observes at successive samples (one sleep separates consecutive
samples).  `ok (some (l, n))` means the loop broke out after `n` sleeps and
delegates to live session `l`'s completion wait; `ok Option.none` means the
observation sequence ended with the loop still polling. -/
def wucLoop (sleeps : Nat) :
    List ManagedTorrentState → Except String (Option (TorrentStateLive × Nat))
  | [] => .ok Option.none
  | s :: rest =>
      match wucStep s with
      | .error e => .error e
      | .ok (some l) => .ok (some (l, sleeps))
      | .ok Option.none => wucLoop (sleeps + 1) rest

/-- What the `external_peer_adder` task leaves behind: its result, the peers
it enqueued into the live session in order, and whether the missing discovery
stream was logged. -/
structure PeerAdderOutcome where
  result : Except String Unit
  enqueued : List Nat
  logged_no_peer_rx : Bool
deriving DecidableEq, Repr

/-- The initial-peer loop of the peer adder: enqueues each address via
`add_peer_if_not_seen` (success per address given by the `addOk` oracle),
propagating a failed enqueue as the error the source attaches
("torrent closed").  Returns the addresses enqueued and the optional
error. -/
def addInitialPeers (addOk : Nat → Bool) :
    List Nat → List Nat × Option String
  | [] => ([], Option.none)
  | p :: rest =>
      if addOk p then
        let r := addInitialPeers addOk rest
        (p :: r.fst, r.snd)
      else ([], some "torrent closed")

/-- The discovery-stream drain loop of the peer adder: for the stream item at
upgrade-call index `idx`, a failed upgrade of the weak live reference
(`alive idx = false`) returns success immediately; a failed enqueue
propagates the "torrent closed" error; the stream ending falls through to
success. -/
def drainStream (alive : Nat → Bool) (addOk : Nat → Bool) (idx : Nat) :
    List Nat → List Nat × Except String Unit
  | [] => ([], .ok ())
  | p :: rest =>
      if alive idx then
        if addOk p then
          let r := drainStream alive addOk (idx + 1) rest
          (p :: r.fst, r.snd)
        else ([], .error "torrent closed")
      else ([], .ok ())

/-- Body of the `external_peer_adder` task.  `alive k` is the outcome of the
`k`-th upgrade of the weak reference to the live session: call `0` is the one
before the initial-peer loop (whose failure the source converts into the
error "no longer live" via `context`), and call `1 + i` guards the `i`-th
discovery-stream item.  `addOk` is the `add_peer_if_not_seen` oracle and
`peer_rx` the optional discovery stream, drained to a list. -/
def peerAdderBody (alive : Nat → Bool) (addOk : Nat → Bool)
    (initial_peers : List Nat) (peer_rx : Option (List Nat)) :
    PeerAdderOutcome :=
  if alive 0 then
    let ini := addInitialPeers addOk initial_peers
    match ini.snd with
    | some e => { result := .error e, enqueued := ini.fst, logged_no_peer_rx := false }
    | Option.none =>
        match peer_rx with
        | some stream =>
            let d := drainStream alive addOk 1 stream
            { result := d.snd
              enqueued := ini.fst ++ d.fst
              logged_no_peer_rx := false }
        | Option.none =>
            { result := .ok (), enqueued := ini.fst, logged_no_peer_rx := true }
  else
    { result := .error "no longer live", enqueued := [], logged_no_peer_rx := false }

/-- True exactly on the phases in which `wait_until_completed` keeps
polling (Initializing and Paused). -/
def isInitOrPaused : ManagedTorrentState → Bool
  | .initializing _ => true
  | .paused _ => true
  | _ => false

/-- Concrete descriptor used to instantiate the theorems on sample inputs. -/
def sampleTorrent : ManagedTorrent :=
  { info := { total_length := 100 }, only_files := Option.none }

def sampleInit : TorrentStateInitializing :=
  { checked_bytes := 0, only_files := Option.none }

def samplePaused : TorrentStatePaused :=
  { have_bytes := 100, chunk_tracker := 0 }

/-- A live-session constructor oracle whose sessions report the paused
snapshot's byte count and pause back to that snapshot successfully. -/
def sampleNewLive (p : TorrentStatePaused) : TorrentStateLive :=
  { have_bytes := p.have_bytes, pause_result := .ok p }

/-- A live session whose own `pause` fails. -/
def badLive : TorrentStateLive :=
  { have_bytes := 0, pause_result := .error "pause failed" }

/-- C7: for every phase, `stats` returns the descriptor's total size, and per
phase: Initializing yields tag "initializing" with the verified-byte counter;
Paused yields its fixed complete-byte count and finished iff complete bytes
equal total; Live yields tag "live", a nested live snapshot, and finished
derived from it; Error yields the stored cause as text; the Empty (`None`)
placeholder yields an error condition describing the invariant violation. -/
theorem C7_stats_per_phase (t : ManagedTorrent) (i : TorrentStateInitializing)
    (p : TorrentStatePaused) (l : TorrentStateLive) (e : String) :
    (∀ s, (t.stats s).total_bytes = t.info.total_length)
    ∧ t.stats (.initializing i)
        = { total_bytes := t.info.total_length, state := "initializing"
            error := Option.none, progress_bytes := i.checked_bytes
            finished := false, live := Option.none }
    ∧ t.stats (.paused p)
        = { total_bytes := t.info.total_length, state := "paused"
            error := Option.none, progress_bytes := p.have_bytes
            finished := p.have_bytes == t.info.total_length, live := Option.none }
    ∧ t.stats (.live l)
        = { total_bytes := t.info.total_length, state := "live"
            error := Option.none
            progress_bytes := (LiveStats.from l).snapshot_have_bytes
            finished := (LiveStats.from l).snapshot_have_bytes == t.info.total_length
            live := some (LiveStats.from l) }
    ∧ t.stats (.error e)
        = { total_bytes := t.info.total_length, state := "error"
            error := some e, progress_bytes := 0, finished := false
            live := Option.none }
    ∧ t.stats .none
        = { total_bytes := t.info.total_length, state := "error"
            error := some "bug: torrent in broken \x22None\x22 state"
            progress_bytes := 0, finished := false, live := Option.none } := by
  refine ⟨fun s => ?_, rfl, rfl, rfl, rfl, rfl⟩
  cases s <;> rfl

/-- C10: in the Error and Empty (`None`) phases `stats` reports zero progress
bytes, `finished = false` and no live sub-statistics, regardless of any
progress made before the failure. -/
theorem C10_error_phase_stats_show_no_progress (t : ManagedTorrent) (e : String) :
    (t.stats (.error e)).progress_bytes = 0
    ∧ (t.stats (.error e)).finished = false
    ∧ (t.stats (.error e)).live = Option.none
    ∧ (t.stats .none).progress_bytes = 0
    ∧ (t.stats .none).finished = false
    ∧ (t.stats .none).live = Option.none :=
  ⟨rfl, rfl, rfl, rfl, rfl, rfl⟩

/-- C6: when the fatal-failure signal delivers a cause while the phase is Live
and the controller is still reachable, the live session is told to pause
(whatever the outcome of that pause — a failure is only logged), the phase is
set to Error holding the received cause, and subsequent `stats` report state
"error" with that cause as text. -/
theorem C6_fatal_error_while_live (t : ManagedTorrent) (l : TorrentStateLive)
    (e : String) :
    (fatalErrorsReceiverBody (some e) true (.live l)).state
        = ManagedTorrentState.error e
    ∧ (fatalErrorsReceiverBody (some e) true (.live l)).live_pause_attempted = true
    ∧ (t.stats (fatalErrorsReceiverBody (some e) true (.live l)).state).state
        = "error"
    ∧ (t.stats (fatalErrorsReceiverBody (some e) true (.live l)).state).error
        = some e := by
  cases h : l.pause_result <;>
    simp [fatalErrorsReceiverBody, ManagedTorrent.stop_with_error,
      ManagedTorrentState.take, ManagedTorrent.stats, h]

/-- C3 counterexample: the phase is Live, yet `pause` fails — because the live
session's own `pause` fails and `live.pause()?` propagates that failure — and
the phase is left Live.  This refutes "pause succeeds if and only if the
phase is Live at call time". -/
theorem C3_counterexample_live_pause_can_fail :
    ManagedTorrent.pause (.live badLive)
      = (Except.error "pause failed", .live badLive) := by
  decide

/-- C3 amended: `pause` succeeds iff the phase is Live and the live session's
own `pause` succeeds, in which case the Paused result replaces the phase;
whenever `pause` fails — from Initializing, Paused, Error, Empty, or from
Live with a failing live-session pause — the phase is left unchanged. -/
theorem C3_amended_pause_success_condition (s : ManagedTorrentState) :
    ((ManagedTorrent.pause s).fst = Except.ok () ↔
      ∃ l p, s = ManagedTorrentState.live l ∧ l.pause_result = Except.ok p)
    ∧ ((ManagedTorrent.pause s).fst ≠ Except.ok () →
        (ManagedTorrent.pause s).snd = s)
    ∧ (∀ l p, s = ManagedTorrentState.live l → l.pause_result = Except.ok p →
        (ManagedTorrent.pause s).snd = ManagedTorrentState.paused p) := by
  refine ⟨?_, ?_, ?_⟩
  · cases s with
    | live l =>
        cases h : l.pause_result <;>
          simp [ManagedTorrent.pause, h]
    | _ => simp [ManagedTorrent.pause]
  · cases s with
    | live l =>
        cases h : l.pause_result <;>
          simp [ManagedTorrent.pause, h]
    | _ => simp [ManagedTorrent.pause]
  · intro l p hs hp
    subst hs
    simp [ManagedTorrent.pause, hp]

/-- C3 witness: the amended theorem applied at concrete inputs — a Live phase
whose session pause fails keeps the phase unchanged, and an Error phase stays
unchanged on a failed pause. -/
theorem C3_amended_witness :
    (ManagedTorrent.pause (.live badLive)).snd = ManagedTorrentState.live badLive
    ∧ (ManagedTorrent.pause (.error "boom")).snd = ManagedTorrentState.error "boom" :=
  ⟨(C3_amended_pause_success_condition (.live badLive)).2.1 (by decide),
   (C3_amended_pause_success_condition (.error "boom")).2.1 (by decide)⟩

/-- C5: when the verification task reacquires the lock with a successful
result but the phase is no longer an Initializing variant, the attempt is
abandoned silently: the task returns success, the state is left exactly as
found, and nothing is spawned. -/
theorem C5_stale_verification_abandoned (t : ManagedTorrent)
    (newLive : TorrentStatePaused → TorrentStateLive)
    (initial_peers : List Nat) (peer_rx : Option (List Nat))
    (start_paused : Bool) (p : TorrentStatePaused) (s : ManagedTorrentState)
    (h : ∀ i, s ≠ ManagedTorrentState.initializing i) :
    initAndStartCont t newLive initial_peers peer_rx start_paused
        (Except.ok p) s
      = { result := Except.ok (), state := s, effect := StartEffect.none } := by
  cases s with
  | initializing i => exact absurd rfl (h i)
  | _ => rfl

/-- C5 witness: the theorem applied at a concrete non-Initializing state (a
Paused phase installed by a concurrent transition). -/
theorem C5_stale_verification_abandoned_witness :
    initAndStartCont sampleTorrent sampleNewLive [] Option.none false
        (Except.ok samplePaused) (.paused samplePaused)
      = { result := Except.ok (), state := .paused samplePaused
          effect := StartEffect.none } :=
  C5_stale_verification_abandoned sampleTorrent sampleNewLive [] Option.none
    false samplePaused (.paused samplePaused) (by intro i h; cases h)

/-- C4: `start` from the Error phase discards the stored cause (the outcome
does not depend on it), installs a brand-new Initializing phase built from
the controller's file-selection subset, and recurses into its own logic; the
recursion terminates after one extra hop because the fresh phase hits the
Initializing branch, which returns directly. -/
theorem C4_error_restart_recursion (t : ManagedTorrent)
    (newLive : TorrentStatePaused → TorrentStateLive)
    (initial_peers : List Nat) (peer_rx : Option (List Nat))
    (start_paused : Bool) (e : String) :
    t.start newLive initial_peers peer_rx start_paused
        (ManagedTorrentState.error e)
      = t.start newLive initial_peers peer_rx start_paused
          (.initializing (TorrentStateInitializing.new t.only_files))
    ∧ t.start newLive initial_peers peer_rx start_paused
          (.initializing (TorrentStateInitializing.new t.only_files))
        = { result := Except.ok ()
            state := .initializing (TorrentStateInitializing.new t.only_files)
            effect := .spawnedInitTask (TorrentStateInitializing.new t.only_files) } := by
  constructor <;> simp [ManagedTorrent.start]

/-- C2 counterexample: with the phase Initializing, `start` returns success to
its caller immediately (its value is fixed when the verification task is
spawned), so a verification failure cannot be the value returned to the
caller of `start`: the failure "verification failed" instead becomes the
spawned task's result, while the phase is set to Error holding it. -/
theorem C2_counterexample_start_returns_ok :
    (sampleTorrent.start sampleNewLive [] Option.none false
        (.initializing sampleInit)).result = Except.ok ()
    ∧ (sampleTorrent.start sampleNewLive [] Option.none false
        (.initializing sampleInit)).result ≠ Except.error "verification failed"
    ∧ (initAndStartCont sampleTorrent sampleNewLive [] Option.none false
        (Except.error "verification failed") (.initializing sampleInit)).state
        = ManagedTorrentState.error "verification failed"
    ∧ (initAndStartCont sampleTorrent sampleNewLive [] Option.none false
        (Except.error "verification failed") (.initializing sampleInit)).result
        = Except.error "verification failed" := by
  refine ⟨?_, ?_, rfl, rfl⟩ <;> simp [ManagedTorrent.start, sampleTorrent]

/-- C2 amended: when verification fails, the Error phase holding the failure
is installed (whatever state the task finds on reacquiring the lock), the
failure is returned as the result of the spawned initialization task — the
synchronous `start` call has already returned success to its caller — and a
subsequent `stats` reports state "error" with the failure as its text. -/
theorem C2_amended_verification_failure (t : ManagedTorrent)
    (newLive : TorrentStatePaused → TorrentStateLive)
    (initial_peers : List Nat) (peer_rx : Option (List Nat))
    (start_paused : Bool) (err : String) (s : ManagedTorrentState)
    (i : TorrentStateInitializing) :
    (initAndStartCont t newLive initial_peers peer_rx start_paused
        (Except.error err) s).state = ManagedTorrentState.error err
    ∧ (initAndStartCont t newLive initial_peers peer_rx start_paused
        (Except.error err) s).result = Except.error err
    ∧ (t.stats (ManagedTorrentState.error err)).state = "error"
    ∧ (t.stats (ManagedTorrentState.error err)).error = some err
    ∧ (t.start newLive initial_peers peer_rx start_paused
        (.initializing i)).result = Except.ok () := by
  refine ⟨rfl, rfl, rfl, rfl, ?_⟩
  simp [ManagedTorrent.start]

/-- C1: no public operation leaves the Empty (`None`) placeholder installed:
starting from any non-Empty phase, `pause`, `start`, `stop_with_error` and
the verification-task continuation all return with a non-Empty phase stored
(the `take()` placeholder is always replaced within the same exclusive
section).  `stats` and `wait_until_completed` take shared access and never
write the cell, so they preserve the phase trivially. -/
theorem C1_operations_never_leave_empty (t : ManagedTorrent)
    (newLive : TorrentStatePaused → TorrentStateLive)
    (initial_peers : List Nat) (peer_rx : Option (List Nat))
    (start_paused : Bool) (e : String)
    (checkResult : Except String TorrentStatePaused)
    (s : ManagedTorrentState) (h : s ≠ ManagedTorrentState.none) :
    (ManagedTorrent.pause s).snd ≠ ManagedTorrentState.none
    ∧ (t.start newLive initial_peers peer_rx start_paused s).state
        ≠ ManagedTorrentState.none
    ∧ (ManagedTorrent.stop_with_error e s).state ≠ ManagedTorrentState.none
    ∧ (initAndStartCont t newLive initial_peers peer_rx start_paused
        checkResult s).state ≠ ManagedTorrentState.none := by
  refine ⟨?_, ?_, ?_, ?_⟩
  · cases s with
    | live l => cases hl : l.pause_result <;> simp [ManagedTorrent.pause, hl]
    | none => exact absurd rfl h
    | _ => simp [ManagedTorrent.pause]
  · cases s with
    | none => exact absurd rfl h
    | _ => simp [ManagedTorrent.start, ManagedTorrentState.take]
  · cases s with
    | live l =>
        cases hl : l.pause_result <;>
          simp [ManagedTorrent.stop_with_error, ManagedTorrentState.take, hl]
    | _ => simp [ManagedTorrent.stop_with_error, ManagedTorrentState.take]
  · cases checkResult with
    | error err => simp [initAndStartCont]
    | ok p =>
        cases s with
        | none => exact absurd rfl h
        | initializing i =>
            cases start_paused <;> simp [initAndStartCont]
        | _ => simp [initAndStartCont]

/-- C1 witness: the theorem applied at a concrete non-Empty phase (Paused),
with concrete arguments everywhere. -/
theorem C1_operations_never_leave_empty_witness :
    (ManagedTorrent.pause (.paused samplePaused)).snd ≠ ManagedTorrentState.none
    ∧ (sampleTorrent.start sampleNewLive [] Option.none false
        (.paused samplePaused)).state ≠ ManagedTorrentState.none
    ∧ (ManagedTorrent.stop_with_error "boom" (.paused samplePaused)).state
        ≠ ManagedTorrentState.none
    ∧ (initAndStartCont sampleTorrent sampleNewLive [] Option.none false
        (Except.ok samplePaused) (.paused samplePaused)).state
        ≠ ManagedTorrentState.none :=
  C1_operations_never_leave_empty sampleTorrent sampleNewLive [] Option.none
    false "boom" (Except.ok samplePaused) (.paused samplePaused) (by decide)

/-- C8: each sample of `wait_until_completed` maps Initializing and Paused to
"sleep a fixed interval and resample", the first Live observed to delegation
to that live session's completion wait, Error to immediate failure with the
stored cause, and the `None` placeholder to an invariant-violation failure;
the loop run over a sequence of Initializing/Paused samples followed by a
Live one sleeps once per polling sample and then delegates to that live
session. -/
theorem C8_wait_until_completed_polling (i : TorrentStateInitializing)
    (p : TorrentStatePaused) (l : TorrentStateLive) (e : String)
    (pre rest : List ManagedTorrentState) (n : Nat)
    (hpre : ∀ s ∈ pre, isInitOrPaused s = true) :
    wucStep (.initializing i) = Except.ok Option.none
    ∧ wucStep (.paused p) = Except.ok Option.none
    ∧ wucStep (.live l) = Except.ok (some l)
    ∧ wucStep (.error e) = Except.error e
    ∧ wucStep .none = Except.error "bug: torrent state is None"
    ∧ wucLoop n (pre ++ .live l :: rest) = Except.ok (some (l, n + pre.length))
    ∧ wucLoop n (.error e :: rest) = Except.error e := by
  refine ⟨rfl, rfl, rfl, rfl, rfl, ?_, rfl⟩
  induction pre generalizing n with
  | nil => simp [wucLoop, wucStep]
  | cons s pre ih =>
      have hs : isInitOrPaused s = true := hpre s (List.mem_cons_self ..)
      have hrec := ih (n + 1) (fun q hq => hpre q (List.mem_cons_of_mem _ hq))
      have harith : n + 1 + pre.length = n + (pre.length + 1) := by omega
      cases s with
      | initializing _ =>
          show wucLoop (n + 1) (pre ++ ManagedTorrentState.live l :: rest)
              = Except.ok (some (l, n + (pre.length + 1)))
          rw [hrec, harith]
      | paused _ =>
          show wucLoop (n + 1) (pre ++ ManagedTorrentState.live l :: rest)
              = Except.ok (some (l, n + (pre.length + 1)))
          rw [hrec, harith]
      | _ => simp [isInitOrPaused] at hs

/-- C8 witness: the theorem applied to a concrete sample sequence — two
polling samples (one Initializing, one Paused) followed by a Live phase: the
loop sleeps twice and delegates to that live session. -/
theorem C8_wait_until_completed_polling_witness :
    wucLoop 0 ([.initializing sampleInit, .paused samplePaused]
        ++ .live (sampleNewLive samplePaused) :: [])
      = Except.ok (some (sampleNewLive samplePaused, 2)) :=
  (C8_wait_until_completed_polling sampleInit samplePaused
      (sampleNewLive samplePaused) "e"
      [.initializing sampleInit, .paused samplePaused] [] 0
      (by decide)).2.2.2.2.2.1

/-- When every enqueue succeeds, the initial-peer loop enqueues the whole
list in order and reports no error. -/
theorem addInitialPeers_all_ok (addOk : Nat → Bool) :
    ∀ ips : List Nat, (∀ q ∈ ips, addOk q = true) →
      addInitialPeers addOk ips = (ips, Option.none)
  | [], _ => rfl
  | p :: rest, h => by
      have hp : addOk p = true := h p (List.mem_cons_self ..)
      have hr := addInitialPeers_all_ok addOk rest
        (fun q hq => h q (List.mem_cons_of_mem _ hq))
      simp [addInitialPeers, hp, hr]

/-- When the live reference stays alive and every enqueue succeeds, the drain
loop enqueues the whole stream in order and ends in success when the stream
ends. -/
theorem drainStream_all_ok (alive addOk : Nat → Bool)
    (halive : ∀ k, alive k = true) :
    ∀ (stream : List Nat) (idx : Nat), (∀ q ∈ stream, addOk q = true) →
      drainStream alive addOk idx stream = (stream, Except.ok ())
  | [], _, _ => rfl
  | p :: rest, idx, h => by
      have hp : addOk p = true := h p (List.mem_cons_self ..)
      have hr := drainStream_all_ok alive addOk halive rest (idx + 1)
        (fun q hq => h q (List.mem_cons_of_mem _ hq))
      simp [drainStream, halive idx, hp, hr]

/-- When the live reference dies exactly after a prefix of the stream has
been handled (every enqueue on the prefix succeeding), the drain loop
enqueues that prefix and stops with success, never observing the rest. -/
theorem drainStream_stops_when_dead (alive addOk : Nat → Bool) :
    ∀ (pre post : List Nat) (idx : Nat),
      (∀ j, j < pre.length → alive (idx + j) = true) →
      (∀ q ∈ pre, addOk q = true) →
      alive (idx + pre.length) = false →
      drainStream alive addOk idx (pre ++ post) = (pre, Except.ok ())
  | [], [], _, _, _, _ => rfl
  | [], _ :: _, idx, _, _, hdead => by
      have h0 : alive idx = false := by simpa using hdead
      simp [drainStream, h0]
  | p :: pre, post, idx, halive, haddOk, hdead => by
      have h0 : alive idx = true := by simpa using halive 0 (by simp)
      have hp : addOk p = true := haddOk p (List.mem_cons_self ..)
      have ih := drainStream_stops_when_dead alive addOk pre post (idx + 1)
        (fun j hj => by
          have e : idx + 1 + j = idx + (j + 1) := by omega
          rw [e]
          exact halive (j + 1) (by simpa using Nat.succ_lt_succ hj))
        (fun q hq => haddOk q (List.mem_cons_of_mem _ hq))
        (by
          have e : idx + 1 + pre.length = idx + (pre.length + 1) := by omega
          rw [e]
          simpa using hdead)
      simp [drainStream, h0, hp, ih]

/-- C9 counterexample: when the weak reference to the live session fails to
upgrade before the initial-peer loop, the task does not stop "without
error" — it fails with the error "no longer live" that the source attaches
via `context`, refuting the claim for the initial-list phase. -/
theorem C9_counterexample_initial_phase_errors :
    peerAdderBody (fun _ => false) (fun _ => true) [7] Option.none
      = { result := Except.error "no longer live", enqueued := []
          logged_no_peer_rx := false } := by
  rfl

/-- C9 amended: the peer-ingest task first enqueues every address from the
initial peer list, but if the Live phase is unreachable when this phase
begins the task fails with the error "no longer live" (rather than stopping
silently); then, if a discovery stream was supplied, it drains the stream,
enqueuing each discovered address, stopping without error when the stream
ends or the Live phase becomes unreachable; if no discovery stream was
supplied this is logged (error level) and the task still returns success. -/
theorem C9_amended_peer_adder (alive addOk : Nat → Bool)
    (initial_peers pre post : List Nat) (peer_rx : Option (List Nat)) :
    (alive 0 = false →
      peerAdderBody alive addOk initial_peers peer_rx
        = { result := Except.error "no longer live", enqueued := []
            logged_no_peer_rx := false })
    ∧ (alive 0 = true → (∀ q ∈ initial_peers, addOk q = true) →
        peerAdderBody alive addOk initial_peers Option.none
          = { result := Except.ok (), enqueued := initial_peers
              logged_no_peer_rx := true })
    ∧ ((∀ k, alive k = true) → (∀ q ∈ initial_peers, addOk q = true) →
        (∀ q ∈ pre, addOk q = true) →
        peerAdderBody alive addOk initial_peers (some pre)
          = { result := Except.ok (), enqueued := initial_peers ++ pre
              logged_no_peer_rx := false })
    ∧ (alive 0 = true → (∀ q ∈ initial_peers, addOk q = true) →
        (∀ j, j < pre.length → alive (1 + j) = true) →
        (∀ q ∈ pre, addOk q = true) →
        alive (1 + pre.length) = false →
        peerAdderBody alive addOk initial_peers (some (pre ++ post))
          = { result := Except.ok (), enqueued := initial_peers ++ pre
              logged_no_peer_rx := false }) := by
  refine ⟨?_, ?_, ?_, ?_⟩
  · intro h0
    simp [peerAdderBody, h0]
  · intro h0 hini
    simp [peerAdderBody, h0, addInitialPeers_all_ok addOk initial_peers hini]
  · intro halive hini hstream
    simp [peerAdderBody, halive 0,
      addInitialPeers_all_ok addOk initial_peers hini,
      drainStream_all_ok alive addOk halive pre 1 hstream]
  · intro h0 hini halive hpre hdead
    simp [peerAdderBody, h0,
      addInitialPeers_all_ok addOk initial_peers hini,
      drainStream_stops_when_dead alive addOk pre post 1 halive hpre hdead]

/-- C9 witness: the amended theorem applied at concrete inputs — a dead
reference before the initial loop yields the "no longer live" error; a
missing discovery stream is logged with the task succeeding; a full drain
enqueues initial list plus stream; a reference dying after one stream item
enqueues just that prefix and succeeds. -/
theorem C9_amended_peer_adder_witness :
    peerAdderBody (fun _ => false) (fun _ => true) [3, 4] Option.none
      = { result := Except.error "no longer live", enqueued := []
          logged_no_peer_rx := false }
    ∧ peerAdderBody (fun _ => true) (fun _ => true) [3, 4] Option.none
      = { result := Except.ok (), enqueued := [3, 4]
          logged_no_peer_rx := true }
    ∧ peerAdderBody (fun _ => true) (fun _ => true) [3, 4] (some [5, 6])
      = { result := Except.ok (), enqueued := [3, 4] ++ [5, 6]
          logged_no_peer_rx := false }
    ∧ peerAdderBody (fun k => decide (k < 2)) (fun _ => true) [3, 4]
        (some ([5] ++ [6]))
      = { result := Except.ok (), enqueued := [3, 4] ++ [5]
          logged_no_peer_rx := false } :=
  ⟨(C9_amended_peer_adder (fun _ => false) (fun _ => true) [3, 4] [] []
      Option.none).1 rfl,
   (C9_amended_peer_adder (fun _ => true) (fun _ => true) [3, 4] [] []
      Option.none).2.1 rfl (by decide),
   (C9_amended_peer_adder (fun _ => true) (fun _ => true) [3, 4] [5, 6] []
      Option.none).2.2.1 (fun _ => rfl) (by decide) (by decide),
   (C9_amended_peer_adder (fun k => decide (k < 2)) (fun _ => true) [3, 4] [5] [6]
      Option.none).2.2.2 (by decide) (by decide) (by decide) (by decide)
      (by decide)⟩
